import Mathlib

/-!
Verification of the RTMA GRIB2-to-TIFF merge pipeline (`main.py`, `validation.py`).

The pure logic of the program is embedded shallowly:

* file names are `String`s; directory listings are lists of `Entry`;
* a GRIB message's value array is a `Grid := List (List ℚ)`;
* a file that cannot be opened or decoded carries `none` for its messages;
* code that raises exceptions is embedded via `Except`/`Option`, with the
  Python `try/except` wrappers modelled by a final catch-all to `false`;
* Python's stable `list.sort(key=...)` is modelled by a stable structural
  insertion sort (`List.insertionSort`), which has the same observable
  contract (sorted output, ties keep input order).
-/

namespace RtmaGrib

/-! ### Timestamp codec (`validation.py`, `extract_timestamp`)

The Python code searches a file name for the regular expression
`t(\d{2})(\d{2})z` and returns the four matched digits as an integer
(the leftmost match wins, as with `re.search`); if nothing matches it
returns the sentinel `9999`.  The whole body is wrapped in
`try/except` returning `9999`, so the function is total. -/

/-- Numeric value of a decimal digit character. -/
def digitVal (c : Char) : Nat := c.toNat - 48

/-- Does the regex `t(\d{2})(\d{2})z` match at the head of the character list?
If so, return the integer formed by the four digits (as `int(f"{hh}{mm}")`
does in the source). -/
def tokMatch : List Char → Option Nat
  | t :: a :: b :: c :: d :: z :: _ =>
    if t = 't' ∧ a.isDigit ∧ b.isDigit ∧ c.isDigit ∧ d.isDigit ∧ z = 'z' then
      some (digitVal a * 1000 + digitVal b * 100 + digitVal c * 10 + digitVal d)
    else none
  | _ => none

/-- Leftmost-match scan over the character list, as `re.search` does. -/
def scanTok : List Char → Option Nat
  | [] => none
  | c :: rest =>
    match tokMatch (c :: rest) with
    | some v => some v
    | none => scanTok rest

/-- `extract_timestamp` from `validation.py`: leftmost `tHHMMz` token as an
integer, sentinel `9999` when the name has no such token. -/
def extract_timestamp (s : String) : Nat := (scanTok s.toList).getD 9999

/-- Specification-level view of a token occurrence: the value of a
`tHHMMz` token starting at position `i` of the name, described purely by
indexing. -/
def specTokenAt (cs : List Char) (i : Nat) : Option Nat :=
  match cs[i]?, cs[i+1]?, cs[i+2]?, cs[i+3]?, cs[i+4]?, cs[i+5]? with
  | some t, some a, some b, some c, some d, some z =>
    if t = 't' ∧ a.isDigit ∧ b.isDigit ∧ c.isDigit ∧ d.isDigit ∧ z = 'z' then
      some (digitVal a * 1000 + digitVal b * 100 + digitVal c * 10 + digitVal d)
    else none
  | _, _, _, _, _, _ => none

theorem specTokenAt_zero (l : List Char) : specTokenAt l 0 = tokMatch l := by
  rcases l with _ | ⟨t, _ | ⟨a, _ | ⟨b, _ | ⟨c, _ | ⟨d, _ | ⟨z, rest⟩⟩⟩⟩⟩⟩ <;>
    simp [specTokenAt, tokMatch]

theorem specTokenAt_succ (c : Char) (l : List Char) (i : Nat) :
    specTokenAt (c :: l) (i + 1) = specTokenAt l i := by
  simp only [specTokenAt]
  norm_num [List.getElem?_cons_succ]

theorem scanTok_of_no_token (cs : List Char)
    (h : ∀ i, specTokenAt cs i = none) : scanTok cs = none := by
  induction cs with
  | nil => rfl
  | cons c rest ih =>
    have h0 : tokMatch (c :: rest) = none := by
      have := h 0
      rwa [specTokenAt_zero] at this
    have hrest : ∀ i, specTokenAt rest i = none := by
      intro i
      have := h (i + 1)
      rwa [specTokenAt_succ] at this
    simp [scanTok, h0, ih hrest]

theorem scanTok_of_first_token (cs : List Char) (i v : Nat)
    (hi : specTokenAt cs i = some v)
    (hmin : ∀ j, j < i → specTokenAt cs j = none) : scanTok cs = some v := by
  induction cs generalizing i with
  | nil =>
    exfalso
    have : specTokenAt ([] : List Char) i = none := by
      simp [specTokenAt]
    rw [this] at hi
    exact Option.noConfusion hi
  | cons c rest ih =>
    cases i with
    | zero =>
      rw [specTokenAt_zero] at hi
      simp [scanTok, hi]
    | succ j =>
      have h0 : tokMatch (c :: rest) = none := by
        have := hmin 0 (Nat.succ_pos j)
        rwa [specTokenAt_zero] at this
      rw [specTokenAt_succ] at hi
      have hmin' : ∀ k, k < j → specTokenAt rest k = none := by
        intro k hk
        have := hmin (k + 1) (Nat.succ_lt_succ hk)
        rwa [specTokenAt_succ] at this
      simp [scanTok, h0, ih j hi hmin']

/-- C2: for every name containing a `tHHMMz` token, `extract_timestamp`
returns the integer `HHMM` of the leftmost token; for every name with no
matching token it returns the sentinel `9999`; every valid timestamp key
(`HH ≤ 23`, `MM ≤ 59`) is below the sentinel, so `9999` sorts after all of
them.  The function is a total Lean function, so it never raises. -/
theorem extract_timestamp_spec (s : String) :
    ((∀ i, specTokenAt s.toList i = none) → extract_timestamp s = 9999)
    ∧ (∀ i v, specTokenAt s.toList i = some v →
        (∀ j, j < i → specTokenAt s.toList j = none) → extract_timestamp s = v)
    ∧ (∀ hh mm : Nat, hh ≤ 23 → mm ≤ 59 → hh * 100 + mm < 9999) := by
  refine ⟨?_, ?_, ?_⟩
  · intro h
    unfold extract_timestamp
    rw [scanTok_of_no_token s.toList h]
    rfl
  · intro i v hi hmin
    unfold extract_timestamp
    rw [scanTok_of_first_token s.toList i v hi hmin]
    rfl
  · intro hh mm h1 h2
    omega

/-- Witness for C2 at the real file-name shape: the leftmost token of
`rtma2p5_ru.t2000z.2dvaranl_ndfd.grb2` starts at index 11 and yields 2000,
and the largest valid key 2359 is below the sentinel. -/
theorem extract_timestamp_spec_witness :
    extract_timestamp "rtma2p5_ru.t2000z.2dvaranl_ndfd.grb2" = 2000
    ∧ 23 * 100 + 59 < 9999 :=
  ⟨(extract_timestamp_spec "rtma2p5_ru.t2000z.2dvaranl_ndfd.grb2").2.1 11 2000
      (by decide) (by decide),
    (extract_timestamp_spec "rtma2p5_ru.t2000z.2dvaranl_ndfd.grb2").2.2 23 59
      (by decide) (by decide)⟩

/-! ### Directory model and the source-set resolver

Both validators discover source files with the same three lines
(`validation.py` lines 59–61 and 182–184):

    grib_files = glob.glob(os.path.join(grib_directory, "*.grb2"))
    grib_files = [entry for entry in grib_files if date in entry]
    grib_files.sort(key=lambda x: extract_timestamp(os.path.basename(x)))

A directory is a list of entries in discovery order; `glob` keeps entries
whose name matches `*.grb2` and yields the directory-joined path; the date
filter is Python substring containment on that path; the sort is stable
ascending on the timestamp key of the basename. -/

/-- Is `pat` a prefix of `l` (character lists)? -/
def charListHasPre : List Char → List Char → Bool
  | [], _ => true
  | _ :: _, [] => false
  | a :: as, b :: bs => a = b && charListHasPre as bs

/-- Python substring containment `pat in l`. -/
def subOccurs (pat : List Char) : List Char → Bool
  | [] => charListHasPre pat []
  | c :: rest => charListHasPre pat (c :: rest) || subOccurs pat rest

/-- Python `s.endswith(suf)` / the `*.grb2` glob suffix test. -/
def strEndsWith (s suf : String) : Bool :=
  charListHasPre suf.toList.reverse s.toList.reverse

/-- Python `pat in s`. -/
def strContainsSub (s pat : String) : Bool := subOccurs pat.toList s.toList

/-- `os.path.basename`: the part of the path after the last `/`. -/
def basename (s : String) : String :=
  ⟨s.toList.foldl (fun acc c => if c = '/' then [] else acc ++ [c]) []⟩

/-- A GRIB value array: a 2-D grid of rational values (`message.values`). -/
abbrev Grid := List (List ℚ)

/-- One directory entry: its basename, whether it is a regular file, and —
when it can be opened and decoded — its list of GRIB messages (each message
contributing its value grid).  `msgs = none` models an unreadable or
undecodable file (`pygrib.open`/decode raising). -/
structure Entry where
  name : String
  isFile : Bool
  msgs : Option (List Grid)
deriving DecidableEq

/-- The sort key used by both validators: timestamp of the basename of the
globbed path. -/
def entryKey (dirPath : String) (e : Entry) : Nat :=
  extract_timestamp (basename (dirPath ++ "/" ++ e.name))

/-- The filter both validators apply before sorting: the glob pattern
`*.grb2` on the name, then Python `date in path` on the joined path. -/
def globDateFilter (dir : List Entry) (dirPath date : String) : List Entry :=
  (dir.filter (fun e => strEndsWith e.name ".grb2")).filter
    (fun e => strContainsSub (dirPath ++ "/" ++ e.name) date)

/-- The source-set resolver shared by `validate_spatial_match` and
`validate_band_values`: glob, date filter, stable ascending sort by
timestamp key.  Python's `list.sort` is a stable sort; it is modelled by
the stable `List.insertionSort`. -/
def discover_grib_files (dir : List Entry) (dirPath date : String) : List Entry :=
  letI : DecidableRel (fun a b : Entry => entryKey dirPath a ≤ entryKey dirPath b) :=
    fun _ _ => Nat.decLe _ _
  List.insertionSort (fun a b => entryKey dirPath a ≤ entryKey dirPath b)
    (globDateFilter dir dirPath date)

theorem discover_perm (dir : List Entry) (dirPath date : String) :
    List.Perm (discover_grib_files dir dirPath date) (globDateFilter dir dirPath date) := by
  unfold discover_grib_files
  exact List.perm_insertionSort _ _

/-- C3: the resolver returns exactly the entries passing the filter (same
count), in non-decreasing timestamp-key order, and entries with equal keys
(including the `9999` sentinel) keep their pre-sort discovery order. -/
theorem discover_grib_files_spec (dir : List Entry) (dirPath date : String) :
    (discover_grib_files dir dirPath date).length
        = (globDateFilter dir dirPath date).length
    ∧ (discover_grib_files dir dirPath date).Pairwise
        (fun a b => entryKey dirPath a ≤ entryKey dirPath b)
    ∧ ∀ k : Nat,
        (discover_grib_files dir dirPath date).filter
            (fun e => entryKey dirPath e == k)
          = (globDateFilter dir dirPath date).filter
            (fun e => entryKey dirPath e == k) := by
  letI : DecidableRel (fun a b : Entry => entryKey dirPath a ≤ entryKey dirPath b) :=
    fun _ _ => Nat.decLe _ _
  haveI htot : IsTotal Entry (fun a b => entryKey dirPath a ≤ entryKey dirPath b) :=
    ⟨fun _ _ => Nat.le_total _ _⟩
  haveI htrans : IsTrans Entry (fun a b => entryKey dirPath a ≤ entryKey dirPath b) :=
    ⟨fun _ _ _ h1 h2 => Nat.le_trans h1 h2⟩
  refine ⟨(discover_perm dir dirPath date).length_eq, ?_, ?_⟩
  · unfold discover_grib_files
    exact List.sorted_insertionSort _ _
  · intro k
    set l := globDateFilter dir dirPath date with hl
    set p : Entry → Bool := fun e => entryKey dirPath e == k with hp
    have hpair : (l.filter p).Pairwise (fun a b => entryKey dirPath a ≤ entryKey dirPath b) := by
      have : ∀ a ∈ l.filter p, entryKey dirPath a = k := by
        intro a ha
        have := List.of_mem_filter ha
        simpa [hp] using this
      exact List.Pairwise.imp_of_mem
        (fun {a b} ha hb _ => by rw [this a ha, this b hb])
        (List.pairwise_of_forall (fun _ _ => trivial))
    have hsub : List.Sublist (l.filter p) (discover_grib_files dir dirPath date) := by
      unfold discover_grib_files
      exact List.sublist_insertionSort hpair (List.filter_sublist l)
    have hsub2 : List.Sublist (l.filter p)
        ((discover_grib_files dir dirPath date).filter p) := by
      have := hsub.filter p
      rwa [List.filter_filter, show (fun e => p e && p e) = p from by
        funext e; cases p e <;> simp] at this
    have hlen : ((discover_grib_files dir dirPath date).filter p).length
        = (l.filter p).length :=
      ((discover_perm dir dirPath date).filter p).length_eq
    exact (hsub2.eq_of_length hlen.symm).symm

/-! ### Band extraction and merge engine (`main.py`, `merge_bands`)

`merge_bands` discovers its input files itself:

    input_files = [... for entry in os.listdir(directory_path)
                   if os.path.isfile(...) and entry.endswith('.grb2')]

i.e. raw `os.listdir` discovery order, filtered to regular `.grb2` files —
with **no date filter and no sort**.  Per file it opens the GRIB, takes
`grbs.message(target_band_number)` (1-based; raises when the index is 0 or
out of range), and appends the message; any per-file exception is printed
and the file skipped.  Zero input files and zero extracted messages raise
`ValueError` before the output file is opened. -/

/-- The merge engine's own file discovery: `os.listdir` order filtered to
regular files ending in `.grb2`.  Note: no sorting, no date filter. -/
def merge_input_files (dir : List Entry) : List Entry :=
  dir.filter (fun e => e.isFile && strEndsWith e.name ".grb2")

/-- Extraction of the target message from one file:
`pygrib.open` (fails when `msgs = none`), then `grbs.message(target)`,
which raises unless `1 ≤ target ≤ number of messages`. -/
def extractLayer (e : Entry) (target : Nat) : Option Grid :=
  match e.msgs with
  | none => none
  | some msgs => if target = 0 then none else msgs[target - 1]?

/-- `merge_bands`: collect the target layer of each discovered file in
discovery order, skipping files whose extraction raises; raise (`.error`)
when no files are discovered or no layer could be extracted.  Both raises
happen before the output file is opened, so on error no output artifact is
created; the `.ok` payload is the ordered layer sequence written to the
output artifact. -/
def merge_bands (dir : List Entry) (target : Nat) : Except String (List Grid) :=
  let input_files := merge_input_files dir
  if input_files = [] then Except.error "No .grb2 files found"
  else
    let messages := input_files.filterMap (fun e => extractLayer e target)
    if messages = [] then
      Except.error "No valid messages were extracted from any files"
    else Except.ok messages

/-- Number of per-file skips logged by `merge_bands` (one per file whose
extraction raised). -/
def skipCount (dir : List Entry) (target : Nat) : Nat :=
  (merge_input_files dir).countP (fun e => (extractLayer e target).isNone)

theorem length_filterMap_add_countP_none {α β : Type} (f : α → Option β) (l : List α) :
    (l.filterMap f).length + l.countP (fun x => (f x).isNone) = l.length := by
  induction l with
  | nil => rfl
  | cons a rest ih =>
    rcases hfa : f a with _ | b <;>
      simp [List.filterMap_cons, List.countP_cons, hfa] <;>
      omega

/-- Concrete directory for the ordering-divergence evidence: file `A`
(timestamp `t0100z`, single message with grid `[[1]]`) is discovered
before file `B` (timestamp `t0000z`, single message with grid `[[2]]`). -/
def entryA : Entry := ⟨"rtma2p5_ru.t0100z.2dvaranl_ndfd.grb2", true, some [[[(1 : ℚ)]]]⟩

/-- Second concrete file, chronologically first but discovered second. -/
def entryB : Entry := ⟨"rtma2p5_ru.t0000z.2dvaranl_ndfd.grb2", true, some [[[(2 : ℚ)]]]⟩

/-- C1 (evidence of the divergence): on the same directory, discovered in
the order `[A, B]`, the merge engine emits `A`'s layer first (it keeps raw
`os.listdir` order), while the validators' shared resolver orders the
source set chronologically as `[B, A]`.  Hence layer 0 of the merged
output originates from file `A`, which sits at index 1 — not 0 — of the
chronologically sorted source set, and the merge engine does not use the
validators' ordering routine. -/
theorem merge_order_diverges_from_validator_order :
    merge_bands [entryA, entryB] 1 = Except.ok [[[(1 : ℚ)]], [[(2 : ℚ)]]]
    ∧ discover_grib_files [entryA, entryB] "input" "" = [entryB, entryA]
    ∧ extractLayer entryB 1 = some [[(2 : ℚ)]]
    ∧ ([[(1 : ℚ)]] : Grid) ≠ [[(2 : ℚ)]] := by
  refine ⟨rfl, rfl, rfl, by decide⟩

/-- C4: `main` computes `num_keys = 60*24 // TIME_STEP_MINUTES` and
asserts it equals the number of regular files in the download directory
before calling `merge_bands`; on mismatch the assertion fails fatally and
no merge is attempted.  The count check guards the merge call, so on
mismatch the result is the assertion error — independent of the target
band and of every file's contents. -/
def main_workflow (step : Nat) (dir : List Entry) (target : Nat) :
    Except String (List Grid) :=
  let num_keys := 60 * 24 / step
  let num_files := (dir.filter (fun e => e.isFile)).length
  if num_keys = num_files then merge_bands dir target
  else Except.error "Invalid number of downloaded files"

/-- C4: whenever the number of files discovered in the download directory
differs from `1440 / step`, the workflow fails fatally with the count
assertion and no merge output is produced, whatever the target band and
file contents. -/
theorem main_workflow_count_precondition (step : Nat) (dir : List Entry) (target : Nat)
    (h : (dir.filter (fun e => e.isFile)).length ≠ 1440 / step) :
    main_workflow step dir target = Except.error "Invalid number of downloaded files" := by
  unfold main_workflow
  rw [if_neg]
  intro hc
  refine h ?_
  rw [← hc]

/-- Witness for C4: an empty download directory with a 60-minute step
(expected count 24) fails the precondition. -/
theorem main_workflow_count_precondition_witness :
    main_workflow 60 [] 9 = Except.error "Invalid number of downloaded files" :=
  main_workflow_count_precondition 60 [] 9 (by decide)

/-- C5 as stated is false at `N = 1`: a source set of one file whose
extraction fails (its message list is empty, so the requested layer index
is out of range) makes `merge_bands` raise the zero-messages `ValueError`
instead of producing an `N − 1 = 0`-layer output without raising. -/
theorem merge_bands_single_failure_counterexample :
    skipCount [⟨"a.grb2", true, some []⟩] 1 = 1
    ∧ (merge_input_files [⟨"a.grb2", true, some []⟩]).length = 1
    ∧ merge_bands [⟨"a.grb2", true, some []⟩] 1
        = Except.error "No valid messages were extracted from any files" :=
  ⟨rfl, rfl, rfl⟩

/-- C5 (amended to `N ≥ 2`): for every source set of `N ≥ 2` discovered
files in which exactly one file's extraction fails (unreadable file,
decode error, or layer index out of range), `merge_bands` produces an
output of exactly `N − 1` layers, logs exactly one skip, and does not
raise. -/
theorem merge_bands_skip_tolerance (dir : List Entry) (target : Nat)
    (h1 : skipCount dir target = 1)
    (h2 : 2 ≤ (merge_input_files dir).length) :
    ∃ msgs, merge_bands dir target = Except.ok msgs
      ∧ msgs.length = (merge_input_files dir).length - 1 := by
  have hlen := length_filterMap_add_countP_none
    (fun e => extractLayer e target) (merge_input_files dir)
  unfold skipCount at h1
  have hmlen : ((merge_input_files dir).filterMap
      (fun e => extractLayer e target)).length = (merge_input_files dir).length - 1 := by
    omega
  have hne : merge_input_files dir ≠ [] := by
    intro hc
    rw [hc] at h2
    simp at h2
  have hmne : (merge_input_files dir).filterMap (fun e => extractLayer e target) ≠ [] := by
    intro hc
    rw [hc] at hmlen
    simp at hmlen
    omega
  refine ⟨_, ?_, hmlen⟩
  unfold merge_bands
  rw [if_neg hne, if_neg hmne]

/-- Witness for C5: two files, the first failing (empty message list), the
second healthy — the merge succeeds with exactly one layer. -/
theorem merge_bands_skip_tolerance_witness :
    ∃ msgs, merge_bands [⟨"a.grb2", true, some []⟩,
        ⟨"b.grb2", true, some [[[(7 : ℚ)]]]⟩] 1 = Except.ok msgs
      ∧ msgs.length = (merge_input_files [⟨"a.grb2", true, some []⟩,
        ⟨"b.grb2", true, some [[[(7 : ℚ)]]]⟩]).length - 1 :=
  merge_bands_skip_tolerance _ 1 rfl (by decide)

/-- C6: zero discovered `.grb2` files make `merge_bands` raise before any
per-file processing; zero successfully extracted layers across all
discovered files make it raise before the output file is opened — in both
cases the result is `.error`, so no output artifact is created. -/
theorem merge_bands_empty_input_fatal (dir : List Entry) (target : Nat) :
    (merge_input_files dir = [] →
      merge_bands dir target = Except.error "No .grb2 files found")
    ∧ (merge_input_files dir ≠ [] →
      (∀ e ∈ merge_input_files dir, extractLayer e target = none) →
      merge_bands dir target
        = Except.error "No valid messages were extracted from any files") := by
  constructor
  · intro h
    unfold merge_bands
    rw [if_pos h]
  · intro hne hall
    have hm : (merge_input_files dir).filterMap (fun e => extractLayer e target) = [] := by
      rw [List.filterMap_eq_nil_iff]
      intro e he
      exact hall e he
    unfold merge_bands
    rw [if_neg hne, if_pos hm]

/-- Witness for C6: a directory with no `.grb2` files raises the
empty-input error, and one whose single file yields no layer raises the
zero-layers error. -/
theorem merge_bands_empty_input_fatal_witness :
    merge_bands [⟨"readme.txt", true, some [[[(1 : ℚ)]]]⟩] 3
        = Except.error "No .grb2 files found"
    ∧ merge_bands [⟨"a.grb2", true, none⟩] 3
        = Except.error "No valid messages were extracted from any files" :=
  ⟨(merge_bands_empty_input_fatal [⟨"readme.txt", true, some [[[(1 : ℚ)]]]⟩] 3).1 rfl,
    (merge_bands_empty_input_fatal [⟨"a.grb2", true, none⟩] 3).2
      (by decide) (by decide)⟩

/-! ### Converted raster and the distribution validator
(`validation.py`, `compare_value_distributions`, `validate_band_values`)

`compare_value_distributions` reads one TIFF band and one GRIB message,
rounds both flattened arrays to 6 decimal places, and compares the two
`Counter`s: first the sets of distinct values (printing both symmetric set
differences and returning `False` on mismatch), then the per-value counts.
Its whole body is wrapped in `try/except` returning `False`.
`validate_band_values` resolves the source set, checks the band count, and
calls the comparison per band in order, returning `False` at the first
failing band. -/

/-- The converted raster: band count is `bands.length`; each band is a
value grid. -/
structure Raster where
  width : Nat
  height : Nat
  bands : List Grid

/-- Rounding a value to 6 decimal places, expressed in micro-units:
`round6 q` is the integer nearest `q * 10^6` (half rounded up), computed
on the raw numerator and denominator so that it evaluates by kernel
reduction.  `round6_eq_round` below shows it equals `round (q * 1000000)`;
two values round to the same 6-decimal value iff their `round6` agree. -/
def round6 (q : ℚ) : ℤ :=
  (2 * q.num * 1000000 + (q.den : ℤ)) / ((2 * q.den : ℕ) : ℤ)

theorem round6_eq_round (q : ℚ) : round6 q = round (q * 1000000) := by
  have hden : ((q.den : ℚ)) ≠ 0 := by
    exact_mod_cast q.den_nz
  have hqd : q * (q.den : ℚ) = (q.num : ℚ) := by
    nth_rewrite 1 [← Rat.num_div_den q]
    exact div_mul_cancel₀ _ hden
  have h2d : (((2 * q.den : ℕ) : ℚ)) ≠ 0 := by
    rw [Nat.cast_ne_zero]
    have := q.den_nz
    omega
  rw [round_eq]
  have hx : q * 1000000 + 1 / 2
      = ((2 * q.num * 1000000 + (q.den : ℤ) : ℤ) : ℚ) / ((2 * q.den : ℕ) : ℚ) := by
    rw [eq_div_iff h2d]
    push_cast
    linear_combination (2000000 : ℚ) * hqd
  rw [hx, Rat.floor_intCast_div_natCast]
  rfl

/-- The multiset comparison at the heart of
`compare_value_distributions`: round both sides to 6 decimals, compare the
sets of distinct values, then the per-value counts over the first side's
distinct values. -/
def compareCore (tiffData gribData : List ℚ) : Bool :=
  if (tiffData.map round6).dedup.all (fun v => (gribData.map round6).dedup.contains v)
      && (gribData.map round6).dedup.all (fun v => (tiffData.map round6).dedup.contains v) then
    (tiffData.map round6).dedup.all
      (fun v => (tiffData.map round6).count v == (gribData.map round6).count v)
  else false

theorem compareCore_eq_true_iff (tiffData gribData : List ℚ) :
    compareCore tiffData gribData = true
      ↔ List.Perm (tiffData.map round6) (gribData.map round6) := by
  unfold compareCore
  set t := tiffData.map round6 with ht
  set g := gribData.map round6 with hg
  clear_value t g
  constructor
  · intro h
    split at h
    case isTrue hset =>
      rw [Bool.and_eq_true, List.all_eq_true, List.all_eq_true] at hset
      obtain ⟨hset1, hset2⟩ := hset
      rw [List.all_eq_true] at h
      rw [List.perm_iff_count]
      intro v
      by_cases hv : v ∈ t
      · have := h v (List.mem_dedup.mpr hv)
        simpa using this
      · have h1 : t.count v = 0 := List.count_eq_zero.mpr hv
        have h2 : g.count v = 0 := by
          rw [List.count_eq_zero]
          intro hvg
          refine hv ?_
          have hcont := hset2 v (List.mem_dedup.mpr hvg)
          have : v ∈ t.dedup := by simpa using hcont
          exact List.mem_dedup.mp this
        rw [h1, h2]
    case isFalse =>
      exact absurd h (by simp)
  · intro hperm
    have hcnt := List.perm_iff_count.mp hperm
    rw [if_pos, List.all_eq_true]
    · intro v _
      simp [hcnt v]
    · rw [Bool.and_eq_true, List.all_eq_true, List.all_eq_true]
      constructor
      · intro v hv
        have : v ∈ g := hperm.mem_iff.mp (List.mem_dedup.mp hv)
        simpa using List.mem_dedup.mpr this
      · intro v hv
        have : v ∈ t := hperm.mem_iff.mpr (List.mem_dedup.mp hv)
        simpa using List.mem_dedup.mpr this

/-- Python list indexing `msgs[band - 1]` as both validators perform it:
for `band = 0` the index `-1` selects the last message (no exception);
otherwise the 1-based index must be in range or an `IndexError` is
raised (`none`). -/
def msgIndex (msgs : List Grid) (band : Nat) : Option Grid :=
  if band = 0 then msgs.getLast? else msgs[band - 1]?

/-- The fallible part of `compare_value_distributions`: read the TIFF band
(`none` means `rasterio` raised), open the GRIB (`none` means `pygrib`
raised), index the message list, then run the pure comparison. -/
def compareInnerE (tiffBand : Option (List ℚ)) (gribMsgs : Option (List Grid))
    (grib_band : Nat) : Except String Bool :=
  match tiffBand with
  | none => Except.error "tiff read raised"
  | some t =>
    match gribMsgs with
    | none => Except.error "pygrib open raised"
    | some msgs =>
      match msgIndex msgs grib_band with
      | none => Except.error "IndexError"
      | some gGrid => Except.ok (compareCore t gGrid.flatten)

/-- `compare_value_distributions`: the `try/except` wrapper catches every
internal exception and returns `False`. -/
def compare_value_distributions (tiffBand : Option (List ℚ))
    (gribMsgs : Option (List Grid)) (grib_band : Nat) : Bool :=
  match compareInnerE tiffBand gribMsgs grib_band with
  | Except.ok b => b
  | Except.error _ => false

/-- The per-band loop of `validate_band_values`: bands of the converted
raster paired positionally with the resolved source files, stopping with
`False` at the first failing band. -/
def bvLoop (pairs : List (Grid × Option (List Grid))) (grib_band : Nat) : Bool :=
  match pairs with
  | [] => true
  | (band, fc) :: rest =>
    if compare_value_distributions (some band.flatten) fc grib_band then
      bvLoop rest grib_band
    else false

/-- `validate_band_values`: resolve the source set, require band count
equality, then compare every (band, source file) pair in order. -/
def validate_band_values (dir : List Entry) (dirPath date : String)
    (tiff : Raster) (grib_band : Nat) : Bool :=
  if tiff.bands.length ≠ (discover_grib_files dir dirPath date).length then false
  else
    bvLoop (tiff.bands.zip ((discover_grib_files dir dirPath date).map Entry.msgs))
      grib_band

theorem bvLoop_append_false (pre rest : List (Grid × Option (List Grid)))
    (band : Grid) (fc : Option (List Grid)) (grib_band : Nat)
    (h : compare_value_distributions (some band.flatten) fc grib_band = false) :
    bvLoop (pre ++ (band, fc) :: rest) grib_band = false := by
  induction pre with
  | nil => simp [bvLoop, h]
  | cons p ps ih =>
    obtain ⟨pband, pfc⟩ := p
    simp only [List.cons_append, bvLoop]
    split
    · exact ih
    · rfl

/-- C7: `compare_value_distributions` returns `True` iff, after rounding
both sides to 6 decimal places, the multiset of values of the converted
band equals the multiset of values of the source layer (equality of list
permutations of the rounded values: same distinct values and same
per-value counts); and `validate_band_values` reports overall failure as
soon as any band pair fails, whatever comes after it. -/
theorem compare_value_distributions_spec :
    (∀ (t : List ℚ) (msgs : List Grid) (grib_band : Nat) (gGrid : Grid),
      msgIndex msgs grib_band = some gGrid →
      (compare_value_distributions (some t) (some msgs) grib_band = true
        ↔ List.Perm (t.map round6) (gGrid.flatten.map round6)))
    ∧ (∀ (pre rest : List (Grid × Option (List Grid))) (band : Grid)
        (fc : Option (List Grid)) (grib_band : Nat),
      compare_value_distributions (some band.flatten) fc grib_band = false →
      bvLoop (pre ++ (band, fc) :: rest) grib_band = false)
    ∧ (∀ (dir : List Entry) (dirPath date : String) (tiff : Raster) (grib_band : Nat)
        (pre rest : List (Grid × Option (List Grid))) (band : Grid)
        (fc : Option (List Grid)),
      tiff.bands.zip ((discover_grib_files dir dirPath date).map Entry.msgs)
          = pre ++ (band, fc) :: rest →
      compare_value_distributions (some band.flatten) fc grib_band = false →
      validate_band_values dir dirPath date tiff grib_band = false) := by
  refine ⟨?_, ?_, ?_⟩
  · intro t msgs grib_band gGrid hidx
    have hinner : compareInnerE (some t) (some msgs) grib_band
        = Except.ok (compareCore t gGrid.flatten) := by
      simp [compareInnerE, hidx]
    unfold compare_value_distributions
    rw [hinner]
    exact compareCore_eq_true_iff t gGrid.flatten
  · intro pre rest band fc grib_band h
    exact bvLoop_append_false pre rest band fc grib_band h
  · intro dir dirPath date tiff grib_band pre rest band fc hzip h
    unfold validate_band_values
    split
    · rfl
    · rw [hzip]
      exact bvLoop_append_false pre rest band fc grib_band h


/-- Witness for C7: a 1-point band whose value matches the single source
layer value compares as `True` via the multiset characterisation. -/
theorem compare_value_distributions_spec_witness :
    compare_value_distributions (some [(5 : ℚ)]) (some [[[(5 : ℚ)]]]) 1 = true :=
  (compare_value_distributions_spec.1 [(5 : ℚ)] [[[(5 : ℚ)]]] 1 [[(5 : ℚ)]] rfl).mpr
    (List.Perm.refl _)

/-! ### Spatial validator (`validation.py`, `validate_spatial_match`)

`validate_spatial_match` resolves the source set with the shared resolver,
returns `False` on band-count mismatch before any sampling, builds a fixed
grid of sample positions with `np.linspace`/`np.meshgrid`, and compares
the converted and source values at each position with absolute tolerance
`1e-5` (`if diff > 1e-5` counts a mismatch); any mismatch in a band
returns `False` for the whole validation.  The body is wrapped in
`try/except` returning `False`, so reading `grb.values[row, col]` out of
range (source grid smaller than the raster) or an unreadable file yields
`False`, never an exception. -/

/-- `np.linspace(0, total-1, n).astype(int)`: `n` evenly spaced indices
from `0` to `total - 1` (empty for `n = 0`, all zero for `n = 1`),
truncated to integers. -/
def linIdx (total n : Nat) : List Nat :=
  (List.range n).map (fun i => if n ≤ 1 then 0 else i * (total - 1) / (n - 1))

/-- `get_fixed_sample_points`: the flattened `np.meshgrid` of the row and
column index lists — every (row, column) combination, columns outermost
(C-order flatten of the meshgrid arrays). -/
def get_fixed_sample_points (total_width total_height grid_size : Nat) :
    List (Nat × Nat) :=
  ((linIdx total_width grid_size).map
    (fun c => (linIdx total_height grid_size).map (fun r => (r, c)))).flatten

/-- 2-D array indexing `arr[row, col]`: raises `IndexError` out of
range. -/
def gridLookupE (g : Grid) (r c : Nat) : Except String ℚ :=
  match g[r]? with
  | none => Except.error "IndexError"
  | some rowv =>
    match rowv[c]? with
    | none => Except.error "IndexError"
    | some v => Except.ok v

/-- The mismatch test `abs(tiff_value - grib_value) > 1e-5`, computed on
raw numerators and denominators so that it evaluates by kernel reduction;
`absDiffGtTol_iff` shows it is exactly `1/100000 < |a - b|`. -/
def absDiffGtTol (a b : ℚ) : Bool :=
  decide (a.den * b.den < 100000 * (a.num * (b.den : ℤ) - b.num * (a.den : ℤ)).natAbs)

theorem absDiffGtTol_iff (a b : ℚ) :
    absDiffGtTol a b = true ↔ (1 : ℚ) / 100000 < |a - b| := by
  unfold absDiffGtTol
  rw [decide_eq_true_eq]
  have hda : ((a.den : ℚ)) ≠ 0 := by exact_mod_cast a.den_nz
  have hdb : ((b.den : ℚ)) ≠ 0 := by exact_mod_cast b.den_nz
  have hqa : a * (a.den : ℚ) = (a.num : ℚ) := by
    nth_rewrite 1 [← Rat.num_div_den a]
    exact div_mul_cancel₀ _ hda
  have hqb : b * (b.den : ℚ) = (b.num : ℚ) := by
    nth_rewrite 1 [← Rat.num_div_den b]
    exact div_mul_cancel₀ _ hdb
  have hDpos : (0 : ℚ) < ((a.den * b.den : ℕ) : ℚ) := by
    have h1 := a.den_nz
    have h2 := b.den_nz
    have : 0 < a.den * b.den := by
      apply Nat.mul_pos <;> omega
    exact_mod_cast this
  have hab : a - b
      = ((a.num * b.den - b.num * a.den : ℤ) : ℚ) / ((a.den * b.den : ℕ) : ℚ) := by
    rw [eq_div_iff (ne_of_gt hDpos)]
    push_cast
    linear_combination (b.den : ℚ) * hqa - (a.den : ℚ) * hqb
  have hXabs : |((a.num * b.den - b.num * a.den : ℤ) : ℚ)|
      = (((a.num * b.den - b.num * a.den).natAbs : ℕ) : ℚ) := by
    rw [← Int.cast_abs, Int.abs_eq_natAbs, Int.cast_natCast]
  rw [hab, abs_div, abs_of_pos hDpos, div_lt_div_iff₀ (by norm_num) hDpos, one_mul,
    hXabs, mul_comm]
  norm_cast
  omega

/-- The inner sample loop for one band: look both values up at each sample
position (propagating `IndexError`), count positions whose absolute
difference exceeds the tolerance. -/
def countMismatches (tiffBand grbVals : Grid) : List (Nat × Nat) → Except String Nat
  | [] => Except.ok 0
  | (r, c) :: rest =>
    match gridLookupE tiffBand r c with
    | Except.error e => Except.error e
    | Except.ok tv =>
      match gridLookupE grbVals r c with
      | Except.error e => Except.error e
      | Except.ok gv =>
        match countMismatches tiffBand grbVals rest with
        | Except.error e => Except.error e
        | Except.ok n => Except.ok (if absDiffGtTol tv gv then n + 1 else n)

/-- The per-band loop of `validate_spatial_match`: open each source file
(raising on failure), take `list(grbs)[target_band_number - 1]`, count the
sample mismatches, and return `False` for the whole validation as soon as
a band has at least one mismatch. -/
def bandLoop (pairs : List (Grid × Option (List Grid))) (target : Nat)
    (pts : List (Nat × Nat)) : Except String Bool :=
  match pairs with
  | [] => Except.ok true
  | (band, fc) :: rest =>
    match fc with
    | none => Except.error "pygrib open raised"
    | some msgs =>
      match msgIndex msgs target with
      | none => Except.error "IndexError"
      | some g =>
        match countMismatches band g pts with
        | Except.error e => Except.error e
        | Except.ok n => if 0 < n then Except.ok false else bandLoop rest target pts

/-- The fallible body of `validate_spatial_match`: resolve the source set,
return `False` on band-count mismatch before any sampling, then run the
band loop over the fixed sample grid. -/
def spatialInnerE (dir : List Entry) (dirPath date : String) (tiff : Raster)
    (target grid_size : Nat) : Except String Bool :=
  if tiff.bands.length ≠ (discover_grib_files dir dirPath date).length then
    Except.ok false
  else
    bandLoop (tiff.bands.zip ((discover_grib_files dir dirPath date).map Entry.msgs))
      target (get_fixed_sample_points tiff.width tiff.height grid_size)

/-- `validate_spatial_match`: the `try/except` wrapper catches every
internal exception and returns `False`. -/
def validate_spatial_match (dir : List Entry) (dirPath date : String) (tiff : Raster)
    (target grid_size : Nat) : Bool :=
  match spatialInnerE dir dirPath date tiff target grid_size with
  | Except.ok b => b
  | Except.error _ => false

/-- C8: when the converted raster's band count differs from the number of
resolved source files, `validate_spatial_match` fails immediately with
`False` — before any sample point is generated and before any band is
read, as witnessed by the result being `false` uniformly in the raster's
band data, the target index and the grid density. -/
theorem validate_spatial_match_band_count (dir : List Entry) (dirPath date : String)
    (tiff : Raster) (target grid_size : Nat)
    (h : tiff.bands.length ≠ (discover_grib_files dir dirPath date).length) :
    validate_spatial_match dir dirPath date tiff target grid_size = false := by
  unfold validate_spatial_match spatialInnerE
  rw [if_pos h]

/-- Witness for C8: a raster with 3 bands validated against a source set
resolving to 2 files fails. -/
theorem validate_spatial_match_band_count_witness :
    validate_spatial_match
      [⟨"rtma2p5_ru.t0000z.2dvaranl_ndfd.grb2", true, some [[[(0 : ℚ)]]]⟩,
        ⟨"rtma2p5_ru.t0100z.2dvaranl_ndfd.grb2", true, some [[[(0 : ℚ)]]]⟩]
      "input" "" ⟨1, 1, [[[(0 : ℚ)]], [[(0 : ℚ)]], [[(0 : ℚ)]]]⟩ 1 32 = false :=
  validate_spatial_match_band_count _ _ _ _ _ _ (by decide)

theorem bandLoop_append_ok_false (pre rest : List (Grid × Option (List Grid)))
    (band : Grid) (msgs : List Grid) (g : Grid) (n target : Nat)
    (pts : List (Nat × Nat))
    (hg : msgIndex msgs target = some g)
    (hcm : countMismatches band g pts = Except.ok n) (hn : 0 < n) :
    ∀ b, bandLoop (pre ++ (band, some msgs) :: rest) target pts = Except.ok b →
      b = false := by
  induction pre with
  | nil =>
    intro b hb
    simp only [List.nil_append, bandLoop, hg, hcm, if_pos hn] at hb
    injection hb with hb'
    exact hb'.symm
  | cons p ps ih =>
    intro b hb
    obtain ⟨pband, pfc⟩ := p
    rw [List.cons_append] at hb
    rcases pfc with _ | pmsgs
    · simp only [bandLoop] at hb
      exact Except.noConfusion hb
    · simp only [bandLoop] at hb
      rcases hpm : msgIndex pmsgs target with _ | pg
      · simp only [hpm] at hb
        exact Except.noConfusion hb
      · simp only [hpm] at hb
        rcases hpc : countMismatches pband pg pts with e | pn
        · simp only [hpc] at hb
          exact Except.noConfusion hb
        · simp only [hpc] at hb
          by_cases hpn : 0 < pn
          · rw [if_pos hpn] at hb
            injection hb with hb'
            exact hb'.symm
          · rw [if_neg hpn] at hb
            exact ih b hb

/-- C9: in `validate_spatial_match`, a sample point whose absolute
difference equals the tolerance `1e-5` exactly is treated as a pass (it
does not change the mismatch count), a difference strictly greater is
counted as a mismatch, and any band with at least one mismatched sample
point makes the entire validation return `False` — there is no partial
pass. -/
theorem validate_spatial_match_tolerance :
    (∀ (band g : Grid) (r c : Nat) (rest : List (Nat × Nat)) (tv gv : ℚ),
      gridLookupE band r c = Except.ok tv →
      gridLookupE g r c = Except.ok gv →
      ((|tv - gv| = 1 / 100000 →
        countMismatches band g ((r, c) :: rest) = countMismatches band g rest)
      ∧ (1 / 100000 < |tv - gv| →
        ∀ n, countMismatches band g rest = Except.ok n →
          countMismatches band g ((r, c) :: rest) = Except.ok (n + 1))))
    ∧ (∀ (dir : List Entry) (dirPath date : String) (tiff : Raster)
        (target grid_size : Nat) (pre rest : List (Grid × Option (List Grid)))
        (band : Grid) (msgs : List Grid) (g : Grid) (n : Nat),
      tiff.bands.zip ((discover_grib_files dir dirPath date).map Entry.msgs)
          = pre ++ (band, some msgs) :: rest →
      msgIndex msgs target = some g →
      countMismatches band g (get_fixed_sample_points tiff.width tiff.height grid_size)
          = Except.ok n →
      0 < n →
      validate_spatial_match dir dirPath date tiff target grid_size = false) := by
  constructor
  · intro band g r c rest tv gv htv hgv
    constructor
    · intro heq
      have habs : absDiffGtTol tv gv = false := by
        rw [← Bool.not_eq_true, absDiffGtTol_iff, heq]
        exact lt_irrefl _
      simp only [countMismatches, htv, hgv, habs]
      cases hcm : countMismatches band g rest <;> simp
    · intro hlt n hcm
      have habs : absDiffGtTol tv gv = true := (absDiffGtTol_iff tv gv).mpr hlt
      simp only [countMismatches, htv, hgv, habs, hcm]
      simp
  · intro dir dirPath date tiff target grid_size pre rest band msgs g n hzip hg hcm hn
    unfold validate_spatial_match
    rcases hinner : spatialInnerE dir dirPath date tiff target grid_size with e | b
    · simp only [hinner]
    · simp only [hinner]
      unfold spatialInnerE at hinner
      split at hinner
      · injection hinner with h'
        exact h'.symm
      · rw [hzip] at hinner
        exact bandLoop_append_ok_false pre rest band msgs g n target _ hg hcm hn b hinner

/-- Witness for C9: a single sample point with difference exactly `1e-5`
is a pass (the count over `[(0,0)]` equals the count over no points). -/
theorem validate_spatial_match_tolerance_witness :
    countMismatches [[(0 : ℚ)]] [[(1 : ℚ) / 100000]] [(0, 0)]
      = countMismatches [[(0 : ℚ)]] [[(1 : ℚ) / 100000]] [] :=
  (validate_spatial_match_tolerance.1 [[(0 : ℚ)]] [[(1 : ℚ) / 100000]] 0 0 []
      0 ((1 : ℚ) / 100000) rfl rfl).1
    (by rw [zero_sub, abs_neg, abs_of_pos (by norm_num)])

/-- C10: the validators return a boolean and never propagate an internal
exception: `validate_spatial_match` and `compare_value_distributions` map
every raised exception (unreadable file, out-of-range indexing into the
source grid, decode error) to `False`, and in `validate_band_values` an
unreadable source file anywhere in the band sequence yields `False` (the
comparison catches its own exception).  All three functions are total
Lean functions into `Bool`. -/
theorem validators_catch_internal_errors :
    (∀ (dir : List Entry) (dirPath date : String) (tiff : Raster)
        (target grid_size : Nat) (e : String),
      spatialInnerE dir dirPath date tiff target grid_size = Except.error e →
      validate_spatial_match dir dirPath date tiff target grid_size = false)
    ∧ (∀ (tiffBand : Option (List ℚ)) (gribMsgs : Option (List Grid))
        (grib_band : Nat) (e : String),
      compareInnerE tiffBand gribMsgs grib_band = Except.error e →
      compare_value_distributions tiffBand gribMsgs grib_band = false)
    ∧ (∀ (pre rest : List (Grid × Option (List Grid))) (band : Grid)
        (grib_band : Nat),
      bvLoop (pre ++ (band, (none : Option (List Grid))) :: rest) grib_band = false) := by
  refine ⟨?_, ?_, ?_⟩
  · intro dir dirPath date tiff target grid_size e h
    unfold validate_spatial_match
    rw [h]
  · intro tiffBand gribMsgs grib_band e h
    unfold compare_value_distributions
    rw [h]
  · intro pre rest band grib_band
    exact bvLoop_append_false pre rest band none grib_band rfl

/-- Witness for C10: an unreadable source file makes the spatial validator
return `False` (the raised open error is caught), and a raised TIFF read
makes the distribution comparison return `False`. -/
theorem validators_catch_internal_errors_witness :
    validate_spatial_match [⟨"rtma2p5_ru.t0000z.2dvaranl_ndfd.grb2", true, none⟩]
      "input" "" ⟨1, 1, [[[(0 : ℚ)]]]⟩ 1 1 = false
    ∧ compare_value_distributions none (some [[[(0 : ℚ)]]]) 1 = false :=
  ⟨validators_catch_internal_errors.1 _ "input" "" _ 1 1 "pygrib open raised" rfl,
    validators_catch_internal_errors.2.1 none (some [[[(0 : ℚ)]]]) 1
      "tiff read raised" rfl⟩

end RtmaGrib
